import Mathlib

/-!
Shallow embedding of the real-time connection manager of this repository:
`src/server/websocket.ts` (upgrade broker, session registry, message router,
port allocation, idle reaper) and the isolated worker process
(`src/unnamed/part_001`).

Conventions of the embedding:
* JS `Map` objects become association lists with unique keys in practice
  (`aset` reproduces `Map.set`: replace in place if the key exists, append
  otherwise; `adel` reproduces `Map.delete`).
* Timestamps (`Date.now()`, `new Date().getTime()`) are `Nat` milliseconds.
* A socket handle is identified by a `Nat` id; the handlers in the source
  close over exactly one socket (`ws`), so every send/close they perform is
  addressed to that id.
* Inbound WebSocket payloads are given pre-parsed as `RawMsg`: either
  `malformed` (JSON.parse throws) or `ok p` with the fields the router reads
  (`sessionId`, `type`, `content`, `channel`), each optional as in JSON.
* Asynchronous collaborators (`getChatHistory`, `saveChatMessage`) are
  modelled at their interface: the history fetch outcome is a parameter
  (`none` = slow/failed, frame omitted), and persistence is an emitted
  `save` effect whose result the router never consults.
-/

namespace Ecosense

/-! ## Association-list model of JS `Map` -/

/-- JS `Map.set`: replace the binding in place when the key is present,
append a new binding otherwise. -/
def aset {β : Type} : List (String × β) → String → β → List (String × β)
  | [], k, v => [(k, v)]
  | (k', v') :: rest, k, v =>
      if k' = k then (k, v) :: rest else (k', v') :: aset rest k v

/-- JS `Map.get` (first binding for the key). -/
def aget {β : Type} : List (String × β) → String → Option β
  | [], _ => none
  | (k', v) :: rest, k => if k = k' then some v else aget rest k

/-- JS `Map.has`. -/
def ahas {β : Type} (m : List (String × β)) (k : String) : Bool :=
  (aget m k).isSome

/-- JS `Map.delete`. -/
def adel {β : Type} (m : List (String × β)) (k : String) : List (String × β) :=
  m.filter (fun p => p.1 ≠ k)

/-! ## Session registry (`activeIsolatedSessions`) -/

/-- One `IsolatedSession` record: `{ ws, server, ip, deviceId }` with the
socket handle as an id (the `server` handle carries no behaviour the claims
touch and is omitted from the record's identity). -/
structure SessEntry where
  wsId : Nat
  ip : String
  deviceId : String
deriving DecidableEq, Repr

/-- The process-wide `activeIsolatedSessions` map. -/
abbrev Registry := List (String × SessEntry)

/-- `activeIsolatedSessions.set(sessionId, {...})` — line 61. -/
def regSet (reg : Registry) (k : String) (v : SessEntry) : Registry :=
  aset reg k v

/-- `activeIsolatedSessions.has(sessionId)` — line 99. -/
def regHas (reg : Registry) (k : String) : Bool := ahas reg k

/-- `activeIsolatedSessions.delete(sessionId)` — line 131. -/
def regRemove (reg : Registry) (k : String) : Registry := adel reg k

/-! ## Inbound frames -/

/-- Fields of a successfully JSON-parsed inbound frame that the router
reads. Each is optional, as in a JSON object. -/
structure ParsedMsg where
  sessionId : Option String
  mtype : Option String
  content : Option String
  channel : Option String
deriving DecidableEq, Repr

/-- A raw inbound payload: either text that fails `JSON.parse` or a parsed
object. -/
inductive RawMsg
  | malformed (text : String)
  | ok (p : ParsedMsg)
deriving DecidableEq, Repr

/-- `JSON.parse(message.toString())` — line 96; `none` when it throws. -/
def parseMsg : RawMsg → Option ParsedMsg
  | .malformed _ => none
  | .ok p => some p

/-! ## Outbound frames and effects -/

/-- Server-to-client frames the source sends; `chatEcho` is the spread
`{...parsed, sessionId, timestamp}` of lines 106-110. -/
inductive OutFrame
  | sessionInit (sessionId deviceId ipAddress : String)
  | welcome (deviceId message : String)
  | history (messages : List String)
  | chatEcho (orig : ParsedMsg) (sessionId : String) (timestamp : Nat)
  | subscribed (channel : Option String)
deriving DecidableEq, Repr

/-- The `type` tag the source writes into each outbound JSON frame. -/
def frameType : OutFrame → String
  | .sessionInit .. => "session_init"
  | .welcome .. => "connection"
  | .history .. => "history"
  | .chatEcho .. => "chat"
  | .subscribed .. => "subscribed"

/-- Observable actions of one invocation of the message handler. -/
inductive Effect
  | sendTo (wsId : Nat) (frame : OutFrame)
  | closeWs (wsId : Nat) (code : Nat) (reason : String)
  | save (deviceId : String) (content : Option String)
  | log (line : String)
deriving DecidableEq, Repr

/-- The state the connection handler closes over: its socket, its canonical
session id (the local `sessionId` of line 59), device id and ip. -/
structure ConnState where
  wsId : Nat
  sessionId : String
  deviceId : String
  ip : String
deriving DecidableEq, Repr

/-! ## Message router (`ws.on('message', ...)`, lines 94-127) -/

/-- The session check of line 99: a frame passes when `parsed.sessionId` is
truthy (a nonempty string) and present in the registry;
`!parsed.sessionId || !activeIsolatedSessions.has(parsed.sessionId)` is its
negation. -/
def sessionOk (reg : Registry) (sid : Option String) : Bool :=
  match sid with
  | none => false
  | some s => !s.isEmpty && regHas reg s

/-- The message handler, lines 94-127: parse; on failure the outer `catch`
logs (line 125) and nothing else happens. On success: close 1008 when the
session check fails (line 100); echo `{...parsed, sessionId, timestamp}` to
the handler's own socket and fire `saveChatMessage(deviceId, parsed.content)`
for `chat` (lines 104-113); confirm `subscribed` for `subscribe`
(lines 117-119, 149-158); log for any other type (line 121). The handler
never consults the result of the `save` effect, so the echoed frame is the
same whatever becomes of persistence. -/
def onMessage (reg : Registry) (conn : ConnState) (raw : RawMsg) (now : Nat) :
    List Effect :=
  match parseMsg raw with
  | none => [.log "Isolated session error"]
  | some parsed =>
    if !(sessionOk reg parsed.sessionId) then
      [.closeWs conn.wsId 1008 "Invalid session"]
    else if parsed.mtype = some "chat" then
      [.sendTo conn.wsId (.chatEcho parsed conn.sessionId now),
       .save conn.deviceId parsed.content]
    else
      match parsed.mtype with
      | some "subscribe" => [.sendTo conn.wsId (.subscribed parsed.channel)]
      | _ => [.log "Unknown message type"]

/-! ## Connection handler (`isolatedWss.on('connection', ...)`, lines 58-133) -/

/-- Result of the connection handler: the updated registry, the connection
state the message handler will close over, the two frames sent synchronously
in order, and the history frame (sent when the asynchronous
`getChatHistory` resolves; absent when the fetch fails or never resolves). -/
structure ConnectResult where
  registry : Registry
  conn : ConnState
  initialFrames : List OutFrame
  historyFrame : Option OutFrame
deriving DecidableEq, Repr

/-- Lines 58-91: generate the session id (deviceId + "-" + now), register
exactly once, send `session_init` then the welcome `connection` frame, then
attach the asynchronous history send. `historyResult` is the outcome of
`getChatHistory deviceId`: `none` when the promise is pending or rejected
(no `.catch` is installed; the frame is simply never sent and the socket is
untouched). -/
def onConnection (reg : Registry) (wsId : Nat) (deviceId ip : String)
    (now : Nat) (historyResult : Option (List String)) : ConnectResult :=
  let sessionId := deviceId ++ "-" ++ toString now
  { registry := regSet reg sessionId ⟨wsId, ip, deviceId⟩
    conn := ⟨wsId, sessionId, deviceId, ip⟩
    initialFrames := [.sessionInit sessionId deviceId ip,
                      .welcome deviceId "Connected to Ecosense WebSocket Server"]
    historyFrame := historyResult.map OutFrame.history }

/-- The close handler, lines 129-132: remove the session from the registry. -/
def onClose (reg : Registry) (conn : ConnState) : Registry :=
  regRemove reg conn.sessionId

/-- Registry after the effects of one message are carried out: a `closeWs`
effect closes the socket, which fires the close handler (lines 129-132) and
deletes the session; no other effect touches the registry. -/
def applyEffects (reg : Registry) (conn : ConnState) (effs : List Effect) :
    Registry :=
  if effs.any (fun e => match e with | .closeWs .. => true | _ => false) then
    onClose reg conn
  else reg

/-! ## Device connections and the two isolation strategies -/

/-- The `DeviceConnection` interface, lines 16-21. -/
structure DeviceConnection where
  deviceId : String
  port : Nat
  connectedAt : Nat
  lastActive : Nat
deriving DecidableEq, Repr

/-- The record built at lines 196-201: both timestamps are `new Date()` at
creation. -/
def mkDeviceConnection (deviceId : String) (port now : Nat) : DeviceConnection :=
  { deviceId := deviceId, port := port, connectedAt := now, lastActive := now }

/-- Observable actions of the per-device echo handlers (`createForDevice`
lines 191-194 and the worker, part_001 lines 16-22); payloads are raw bytes. -/
inductive DevEffect
  | send (wsId : Nat) (payload : List Nat)
  | logLine (line : String)
deriving DecidableEq, Repr

/-- The `createForDevice` message handler, lines 191-194: echo the payload
verbatim to the same socket. It is the only traffic handler on this path and
it does not touch the `DeviceConnection` record, which is returned unchanged. -/
def deviceOnMessage (conn : DeviceConnection) (wsId : Nat)
    (payload : List Nat) : DeviceConnection × List DevEffect :=
  (conn, [.send wsId payload])

/-- An `IsolatedProcess` record, lines 23-27 (the opaque `process` handle is
dropped). -/
structure IsolatedProcessRec where
  port : Nat
  deviceId : String
deriving DecidableEq, Repr

/-- Module-global state used by `createIsolatedProcess`: the global
`portCounter` of line 38 (initialised to 3000) and `activeProcesses`. -/
structure ProcState where
  portCounter : Nat
  activeProcesses : List (String × IsolatedProcessRec)
deriving DecidableEq, Repr

/-- The module state at load: `let portCounter = 3000`, empty maps. -/
def initialProcState : ProcState := { portCounter := 3000, activeProcesses := [] }

/-- `createIsolatedProcess`, lines 225-250: take the global counter's value
as the port, post-increment it, fork the worker with
`['--device-id', deviceId, '--port', port.toString()]`, and record the
process. Returns (port, worker argv) with the new module state. -/
def createIsolatedProcess (st : ProcState) (deviceId : String) :
    (Nat × List String) × ProcState :=
  let port := st.portCounter
  ((port, ["--device-id", deviceId, "--port", toString port]),
   { portCounter := st.portCounter + 1,
     activeProcesses := aset st.activeProcesses deviceId ⟨port, deviceId⟩ })

/-- The worker exit handler, lines 242-244: delete the `activeProcesses`
entry; the global port counter is not touched, so the port is never handed
out again. -/
def onWorkerExit (st : ProcState) (deviceId : String) : ProcState :=
  { st with activeProcesses := adel st.activeProcesses deviceId }

/-- State of one `createDeviceIsolatedServer` factory: its own local
`portCounter` (line 178, `let portCounter = basePort`), which shadows the
module-global counter of line 38. -/
structure DeviceServerFactory where
  portCounter : Nat
deriving DecidableEq, Repr

/-- `createDeviceIsolatedServer(basePort)`, lines 173-179: the factory's
counter starts at `basePort`. -/
def createDeviceIsolatedServer (basePort : Nat) : DeviceServerFactory :=
  { portCounter := basePort }

/-- `createForDevice`, lines 182-221 (port allocation aspect): take the
factory counter's value as the port and post-increment. -/
def createForDevice (f : DeviceServerFactory) : Nat × DeviceServerFactory :=
  (f.portCounter, { portCounter := f.portCounter + 1 })

/-- Events the Process Isolation Manager reacts to: a spawn request or a
worker exit. -/
inductive PMEvent
  | spawn (deviceId : String)
  | exited (deviceId : String)
deriving DecidableEq, Repr

/-- Run a sequence of spawn/exit events against the module state, collecting
the assigned ports in order. -/
def runEvents (st : ProcState) : List PMEvent → List Nat × ProcState
  | [] => ([], st)
  | .spawn d :: rest =>
      let r := createIsolatedProcess st d
      let rec' := runEvents r.2 rest
      (r.1.1 :: rec'.1, rec'.2)
  | .exited d :: rest => runEvents (onWorkerExit st d) rest

/-- Ports assigned by `n` successive `createForDevice` calls on one factory. -/
def forDevicePorts (f : DeviceServerFactory) : Nat → List Nat
  | 0 => []
  | n + 1 =>
      let r := createForDevice f
      r.1 :: forDevicePorts r.2 n

/-! ## Idle reaper (`cleanupInactiveDevices`, lines 261-272) -/

/-- The record stored in `deviceServers` at line 188: `{ httpServer, wss, ws }`
(typed at lines 32-36). Note it has NO `close` method — the `close` closure
of lines 216-219 lives only in the object `createForDevice` returns and is
never stored in the map. The handles are opaque to the sweep, so ids stand
for them. -/
structure ServerRec where
  httpServerId : Nat
  wssId : Nat
  wsId : Option Nat
deriving DecidableEq, Repr

/-- The module maps the reaper reads and writes: `activeConnections`,
`deviceServers`, `activeProcesses`. -/
structure SweepState where
  activeConnections : List (String × DeviceConnection)
  deviceServers : List (String × ServerRec)
  activeProcesses : List (String × IsolatedProcessRec)
deriving DecidableEq, Repr

/-- The fixed idle threshold of line 264: `30 * 60 * 1000` milliseconds. -/
def idleThresholdMs : Nat := 30 * 60 * 1000

/-- Line 264's test `now.getTime() - conn.lastActive.getTime() > 30*60*1000`.
(`Nat` truncated subtraction agrees with the JS comparison: a negative JS
difference and a truncated 0 both fail the `>` test.) -/
def isStale (now : Nat) (c : DeviceConnection) : Bool :=
  now - c.lastActive > idleThresholdMs

/-- The `for...of` loop of lines 263-268 over the (insertion-ordered)
entries of `activeConnections`. For a stale entry the body first evaluates
`deviceServers.get(deviceId)?.close()` (line 265): when the device has a
`deviceServers` entry, the stored `{ httpServer, wss, ws }` record has no
`close` property — optional chaining only guards a nullish map result — so
the call throws a TypeError that escapes the sweep: the returned flag is
`true` and the state is whatever it was at that moment. When there is no
entry, `?.` short-circuits and `activeConnections.delete(deviceId)`
(line 266) runs. Fresh entries are skipped. Deleting the current entry
cannot affect the rest of the iteration (map keys are unique), so walking
the entry snapshot is faithful to iterating the live map. -/
def cleanupLoop (now : Nat) :
    List (String × DeviceConnection) → SweepState → SweepState × Bool
  | [], st => (st, false)
  | (d, c) :: rest, st =>
      if isStale now c then
        match aget st.deviceServers d with
        | some _ => (st, true)
        | none =>
            cleanupLoop now rest
              { st with activeConnections := adel st.activeConnections d }
      else cleanupLoop now rest st

/-- `cleanupInactiveDevices`, lines 261-269: sweep `activeConnections`;
returns the final maps and whether the sweep aborted with the line-265
TypeError. `deviceServers` and `activeProcesses` are never modified (the
only code that could touch `deviceServers` is the `close` closure, which is
not reachable from the map). -/
def cleanupInactiveDevices (now : Nat) (st : SweepState) : SweepState × Bool :=
  cleanupLoop now st.activeConnections st

/-! ## Worker process (`src/unnamed/part_001`) -/

/-- JS `Array.prototype.indexOf` from position `i`. -/
def jsIndexOfAux (flag : String) : List String → Nat → Int
  | [], _ => -1
  | a :: rest, i => if a = flag then (i : Int) else jsIndexOfAux flag rest (i + 1)

/-- JS `Array.prototype.indexOf`: first index, `-1` when absent. -/
def jsIndexOf (args : List String) (flag : String) : Int :=
  jsIndexOfAux flag args 0

/-- Zero-based list indexing. -/
def nthArg : List String → Nat → Option String
  | [], _ => none
  | a :: _, 0 => some a
  | _ :: rest, n + 1 => nthArg rest n

/-- JS array subscript `args[i]`: `undefined` out of range. -/
def argAt (args : List String) (i : Int) : Option String :=
  if i < 0 then none else nthArg args i.toNat

/-- Decimal-numeral reading of a string: the digits' value when the string
is nonempty and all digits, `none` otherwise. -/
def parseDecimal (s : String) : Option Nat :=
  let cs := s.data
  if cs ≠ [] ∧ cs.all Char.isDigit then
    some (cs.foldl (fun a c => a * 10 + (c.toNat - 48)) 0)
  else none

/-- `parseInt` as the worker applies it to an argv entry: `NaN` (`none`) for
`undefined`; for a string, the decimal reading (the worker's actual argv
entry is `port.toString()`, an all-digit string, on which `parseInt` is
exactly the decimal reading). -/
def parseIntJS : Option String → Option Nat
  | none => none
  | some s => parseDecimal s

/-- The values the worker derives from argv, part_001 lines 4-6. -/
structure WorkerConfig where
  deviceId : Option String
  port : Option Nat
deriving DecidableEq, Repr

/-- Lines 4-6: `args[args.indexOf('--device-id') + 1]` and
`parseInt(args[args.indexOf('--port') + 1])`. -/
def workerParseArgs (args : List String) : WorkerConfig :=
  { deviceId := argAt args (jsIndexOf args "--device-id" + 1),
    port := parseIntJS (argAt args (jsIndexOf args "--port" + 1)) }

/-- The worker's message handler, lines 16-22: log receipt, send the payload
back verbatim on the same socket, log the echo. -/
def workerOnMessage (wsId : Nat) (payload : List Nat) : List DevEffect :=
  [.logLine "Received", .send wsId payload, .logLine "Echoed back"]

/-- Outcome of the SIGTERM handler, lines 29-33. -/
structure SigtermResult where
  serverClosed : Bool
  exitCode : Nat
deriving DecidableEq, Repr

/-- Lines 29-33: `server.close(); process.exit(0)`. -/
def workerOnSigterm : SigtermResult :=
  { serverClosed := true, exitCode := 0 }

/-! ## Helper lemmas about the `Map` model -/

theorem aget_aset_self {β : Type} (m : List (String × β)) (k : String) (v : β) :
    aget (aset m k v) k = some v := by
  induction m with
  | nil => simp [aset, aget]
  | cons hd tl ih =>
    obtain ⟨k', v'⟩ := hd
    by_cases h : k' = k
    · subst h; simp [aset, aget]
    · simp only [aset, if_neg h, aget, if_neg (fun h2 : k = k' => h h2.symm)]
      exact ih

theorem aget_aset_ne {β : Type} (m : List (String × β)) (k k2 : String) (v : β)
    (h : k2 ≠ k) : aget (aset m k v) k2 = aget m k2 := by
  induction m with
  | nil => simp [aset, aget, h]
  | cons hd tl ih =>
    obtain ⟨k', v'⟩ := hd
    by_cases hk : k' = k
    · subst hk; simp [aset, aget, h]
    · by_cases hk2 : k2 = k'
      · subst hk2; simp [aset, aget, hk]
      · simp [aset, aget, hk, hk2, ih]

theorem length_aset_of_fresh {β : Type} (m : List (String × β)) (k : String) (v : β)
    (h : ahas m k = false) : (aset m k v).length = m.length + 1 := by
  induction m with
  | nil => simp [aset]
  | cons hd tl ih =>
    obtain ⟨k', v'⟩ := hd
    simp only [ahas, aget, Option.isSome] at h
    by_cases hk : k = k'
    · simp [hk] at h
    · simp only [if_neg hk] at h
      have : ahas tl k = false := by
        simp only [ahas]
        cases hget : aget tl k with
        | none => rfl
        | some w => rw [hget] at h; simp at h
      simp only [aset, if_neg (fun h2 : k' = k => hk h2.symm), List.length_cons,
        ih this]

/-! ## Helper lemmas about port allocation -/

theorem runEvents_ports_lb (evs : List PMEvent) (st : ProcState) :
    ∀ x ∈ (runEvents st evs).1, st.portCounter ≤ x := by
  induction evs generalizing st with
  | nil => simp [runEvents]
  | cons e rest ih =>
    cases e with
    | spawn d =>
      intro x hx
      simp only [runEvents, createIsolatedProcess] at hx
      rcases List.mem_cons.mp hx with h | h
      · exact h ▸ Nat.le_refl _
      · exact Nat.le_of_succ_le (ih _ x h)
    | exited d =>
      intro x hx
      simp only [runEvents] at hx
      simpa [onWorkerExit] using ih _ x hx

theorem runEvents_ports_pairwise (evs : List PMEvent) (st : ProcState) :
    ((runEvents st evs).1).Pairwise (· < ·) := by
  induction evs generalizing st with
  | nil => simp [runEvents]
  | cons e rest ih =>
    cases e with
    | spawn d =>
      simp only [runEvents, createIsolatedProcess]
      refine List.Pairwise.cons ?_ (ih _)
      intro x hx
      have := runEvents_ports_lb rest _ x hx
      simp only at this
      exact Nat.lt_of_succ_le this
    | exited d =>
      simp only [runEvents]
      exact ih _

theorem forDevicePorts_lb (n : Nat) (f : DeviceServerFactory) :
    ∀ x ∈ forDevicePorts f n, f.portCounter ≤ x := by
  induction n generalizing f with
  | zero => simp [forDevicePorts]
  | succ n ih =>
    intro x hx
    simp only [forDevicePorts, createForDevice] at hx
    rcases List.mem_cons.mp hx with h | h
    · exact h ▸ Nat.le_refl _
    · exact Nat.le_of_succ_le (ih _ x h)

theorem forDevicePorts_pairwise (n : Nat) (f : DeviceServerFactory) :
    (forDevicePorts f n).Pairwise (· < ·) := by
  induction n generalizing f with
  | zero => simp [forDevicePorts]
  | succ n ih =>
    simp only [forDevicePorts, createForDevice]
    refine List.Pairwise.cons ?_ (ih _)
    intro x hx
    have := forDevicePorts_lb n _ x hx
    simp only at this
    exact Nat.lt_of_succ_le this

/-! ## Claim theorems -/

/-- C1: For every inbound `chat` frame whose session id passes the registry
check, the router emits exactly one echoed frame, addressed to the socket
the frame arrived on (every `sendTo` the handler ever emits targets its own
socket), stamped with that connection's canonical session id and the server
timestamp, together with exactly one `saveChatMessage` call carrying the
connection's device id and the frame's content. The echoed response is fixed
by the parsed frame, the canonical session id and the clock alone — the
handler takes no persistence outcome as input, so a persistence failure
cannot change it. -/
theorem chat_frame_echoed_once_to_origin
    (reg : Registry) (conn : ConnState) (raw : RawMsg) (now : Nat)
    (p : ParsedMsg)
    (hp : parseMsg raw = some p)
    (hok : sessionOk reg p.sessionId = true)
    (hty : p.mtype = some "chat") :
    onMessage reg conn raw now =
      [.sendTo conn.wsId (.chatEcho p conn.sessionId now),
       .save conn.deviceId p.content] ∧
    (∀ w f, Effect.sendTo w f ∈ onMessage reg conn raw now →
        w = conn.wsId ∧ f = .chatEcho p conn.sessionId now) := by
  have heq : onMessage reg conn raw now =
      [.sendTo conn.wsId (.chatEcho p conn.sessionId now),
       .save conn.deviceId p.content] := by
    simp [onMessage, hp, hok, hty]
  refine ⟨heq, ?_⟩
  intro w f hmem
  rw [heq] at hmem
  simp only [List.mem_cons, List.mem_singleton] at hmem
  rcases hmem with h | h | h
  · exact ⟨(Effect.sendTo.injEq .. ▸ h).1, (Effect.sendTo.injEq .. ▸ h).2⟩
  · exact absurd h (by simp)
  · exact absurd h (by simp)

/-- C1 witness: a concrete registry with one session, a `chat` frame on it. -/
theorem chat_frame_echoed_once_to_origin_witness :
    onMessage [("s1", ⟨1, "ip1", "devA"⟩)] ⟨1, "s1", "devA", "ip1"⟩
        (.ok ⟨some "s1", some "chat", some "hello", none⟩) 42 =
      [.sendTo 1 (.chatEcho ⟨some "s1", some "chat", some "hello", none⟩ "s1" 42),
       .save "devA" (some "hello")] :=
  (chat_frame_echoed_once_to_origin [("s1", ⟨1, "ip1", "devA"⟩)]
    ⟨1, "s1", "devA", "ip1"⟩ (.ok ⟨some "s1", some "chat", some "hello", none⟩)
    42 ⟨some "s1", some "chat", some "hello", none⟩
    (by decide) (by decide) (by decide)).1

/-- C3: a successfully parsed frame whose `sessionId` is absent, empty or
unknown to the registry makes the handler close the socket with code 1008
and nothing else (no dispatch, no send, no save); conversely, every
`closeWs` the handler can ever emit has code 1008, targets the handler's own
socket, and arises only from a parsed frame failing the session check — so
no frame lacking a registered session id reaches the chat or subscribe
handlers, and no other message-handling path closes a socket. -/
theorem invalid_session_closes_socket
    (reg : Registry) (conn : ConnState) (raw : RawMsg) (now : Nat)
    (p : ParsedMsg)
    (hp : parseMsg raw = some p)
    (hbad : sessionOk reg p.sessionId = false) :
    onMessage reg conn raw now = [.closeWs conn.wsId 1008 "Invalid session"] ∧
    (∀ reg1 conn1 raw1 now1 w c r,
        Effect.closeWs w c r ∈ onMessage reg1 conn1 raw1 now1 →
        c = 1008 ∧ w = conn1.wsId ∧
        ∃ q, parseMsg raw1 = some q ∧ sessionOk reg1 q.sessionId = false) := by
  constructor
  · simp [onMessage, hp, hbad]
  · intro reg1 conn1 raw1 now1 w c r hmem
    cases raw1 with
    | malformed t => simp [onMessage, parseMsg] at hmem
    | ok q =>
      by_cases hq : sessionOk reg1 q.sessionId
      · exfalso
        by_cases hty : q.mtype = some "chat"
        · simp [onMessage, parseMsg, hq, hty] at hmem
        · cases hmt : q.mtype with
          | none => simp [onMessage, parseMsg, hq, hmt] at hmem
          | some t =>
            rw [hmt] at hty
            simp [onMessage, parseMsg, hq, hmt, hty] at hmem
            split at hmem <;> simp_all
      · have : onMessage reg1 conn1 (.ok q) now1 =
            [.closeWs conn1.wsId 1008 "Invalid session"] := by
          simp [onMessage, parseMsg, eq_false_of_ne_true hq]
        rw [this] at hmem
        simp only [List.mem_singleton, Effect.closeWs.injEq] at hmem
        exact ⟨hmem.2.1, hmem.1, q, rfl, eq_false_of_ne_true hq⟩

/-- C3 witness: a frame naming an unknown session id on a live connection. -/
theorem invalid_session_closes_socket_witness :
    onMessage [("s1", ⟨1, "ip1", "devA"⟩)] ⟨1, "s1", "devA", "ip1"⟩
        (.ok ⟨some "sX", some "chat", some "hello", none⟩) 42 =
      [.closeWs 1 1008 "Invalid session"] :=
  (invalid_session_closes_socket [("s1", ⟨1, "ip1", "devA"⟩)]
    ⟨1, "s1", "devA", "ip1"⟩ (.ok ⟨some "sX", some "chat", some "hello", none⟩)
    42 ⟨some "sX", some "chat", some "hello", none⟩
    (by decide) (by decide)).1

/-- C9: a frame that fails to parse is logged and dropped: the handler emits
only the log, sends nothing, closes nothing, the registry is unchanged after
its effects, and any subsequent frame on the same socket is handled exactly
as it would have been before the malformed one. -/
theorem malformed_frame_dropped
    (reg : Registry) (conn : ConnState) (text : String) (now : Nat) :
    onMessage reg conn (.malformed text) now = [.log "Isolated session error"] ∧
    applyEffects reg conn (onMessage reg conn (.malformed text) now) = reg ∧
    (∀ raw2 now2,
        onMessage (applyEffects reg conn (onMessage reg conn (.malformed text) now))
            conn raw2 now2 =
          onMessage reg conn raw2 now2) := by
  have h1 : onMessage reg conn (.malformed text) now =
      [.log "Isolated session error"] := by
    simp [onMessage, parseMsg]
  have h2 : applyEffects reg conn (onMessage reg conn (.malformed text) now) = reg := by
    rw [h1]; simp [applyEffects]
  exact ⟨h1, h2, fun raw2 now2 => by rw [h2]⟩

/-- C10: the session check of line 99 accepts a frame whose `sessionId`
names any live registry entry, not only the session issued to the receiving
socket: a `chat` frame carrying a different live connection's session id is
dispatched normally (not closed), and the echo goes to the receiving socket
stamped with that socket's own canonical session id, not the id named in
the frame. -/
theorem foreign_session_id_accepted
    (reg : Registry) (conn : ConnState) (p : ParsedMsg) (now : Nat) (s : String)
    (hsid : p.sessionId = some s)
    (hne : s ≠ conn.sessionId)
    (hs : s.isEmpty = false)
    (hhas : regHas reg s = true)
    (hty : p.mtype = some "chat") :
    onMessage reg conn (.ok p) now =
      [.sendTo conn.wsId (.chatEcho p conn.sessionId now),
       .save conn.deviceId p.content] ∧
    conn.sessionId ≠ s := by
  have hok : sessionOk reg p.sessionId = true := by
    rw [hsid]; simp [sessionOk, hs, hhas]
  exact ⟨(chat_frame_echoed_once_to_origin reg conn (.ok p) now p rfl hok hty).1,
    fun h => hne h.symm⟩

/-- C10 witness: two live sessions; the frame arrives on `s1`'s socket but
names `s2`; it is echoed on socket 1 stamped `s1`. -/
theorem foreign_session_id_accepted_witness :
    onMessage [("s1", ⟨1, "ip1", "devA"⟩), ("s2", ⟨2, "ip2", "devB"⟩)]
        ⟨1, "s1", "devA", "ip1"⟩
        (.ok ⟨some "s2", some "chat", some "hi", none⟩) 42 =
      [.sendTo 1 (.chatEcho ⟨some "s2", some "chat", some "hi", none⟩ "s1" 42),
       .save "devA" (some "hi")] :=
  (foreign_session_id_accepted
    [("s1", ⟨1, "ip1", "devA"⟩), ("s2", ⟨2, "ip2", "devB"⟩)]
    ⟨1, "s1", "devA", "ip1"⟩ ⟨some "s2", some "chat", some "hi", none⟩ 42 "s2"
    (by decide) (by decide) (by decide) (by decide) (by decide)).1

/-- C2: a completed handshake registers exactly one session (the registry
grows by one, the new key holds the connection's entry, every other key is
untouched), and the initialization frames are exactly one `session_init`
(session id, device id, remote address) followed by one `connection` welcome
frame, with the `history` frame issued separately once the asynchronous
fetch resolves — delayed or omitted (`historyResult = none`) without
changing the registration, the synchronous frames, or closing the socket. -/
theorem connect_registers_once_and_init_frames
    (reg : Registry) (wsId : Nat) (deviceId ip : String) (now : Nat)
    (historyResult : Option (List String))
    (hfresh : regHas reg (deviceId ++ "-" ++ toString now) = false) :
    (onConnection reg wsId deviceId ip now historyResult).registry.length
        = reg.length + 1 ∧
    aget (onConnection reg wsId deviceId ip now historyResult).registry
        (deviceId ++ "-" ++ toString now) = some ⟨wsId, ip, deviceId⟩ ∧
    (∀ k, k ≠ deviceId ++ "-" ++ toString now →
        aget (onConnection reg wsId deviceId ip now historyResult).registry k
          = aget reg k) ∧
    (onConnection reg wsId deviceId ip now historyResult).initialFrames
        = [.sessionInit (deviceId ++ "-" ++ toString now) deviceId ip,
           .welcome deviceId "Connected to Ecosense WebSocket Server"] ∧
    (onConnection reg wsId deviceId ip now historyResult).initialFrames.map frameType
        = ["session_init", "connection"] ∧
    (onConnection reg wsId deviceId ip now historyResult).historyFrame
        = historyResult.map OutFrame.history ∧
    (onConnection reg wsId deviceId ip now none).registry
        = (onConnection reg wsId deviceId ip now historyResult).registry ∧
    (onConnection reg wsId deviceId ip now none).initialFrames
        = (onConnection reg wsId deviceId ip now historyResult).initialFrames := by
  refine ⟨?_, ?_, ?_, ?_, ?_, ?_, ?_, ?_⟩
  · exact length_aset_of_fresh _ _ _ hfresh
  · exact aget_aset_self _ _ _
  · intro k hk
    exact aget_aset_ne _ _ _ _ hk
  · rfl
  · rfl
  · rfl
  · rfl
  · rfl

/-- C2 witness: a fresh connection for device `devA` at time 777. -/
theorem connect_registers_once_and_init_frames_witness :
    aget (onConnection [] 5 "devA" "9.9.9.9" 777 (some ["m1"])).registry
        ("devA" ++ "-" ++ toString 777) = some ⟨5, "9.9.9.9", "devA"⟩ ∧
    (onConnection [] 5 "devA" "9.9.9.9" 777 (some ["m1"])).initialFrames.map frameType
        = ["session_init", "connection"] :=
  ⟨(connect_registers_once_and_init_frames [] 5 "devA" "9.9.9.9" 777
      (some ["m1"]) (by decide)).2.1,
   (connect_registers_once_and_init_frames [] 5 "devA" "9.9.9.9" 777
      (some ["m1"]) (by decide)).2.2.2.2.1⟩

/-- C4 counterexample: the two strategies do NOT share one counter.
`createDeviceIsolatedServer` shadows the module-global `portCounter` with a
local one seeded at `basePort` (line 178), while `createIsolatedProcess`
uses the module-global counter starting at 3000 (lines 38, 226); spawning
one target through each with `basePort = 3000` assigns both the port 3000,
so the claim that any two targets' ports differ is false. -/
theorem cross_strategy_port_collision :
    (createForDevice (createDeviceIsolatedServer 3000)).1 = 3000 ∧
    (createIsolatedProcess initialProcState "devB").1.1 = 3000 ∧
    ¬ ((createForDevice (createDeviceIsolatedServer 3000)).1
        ≠ (createIsolatedProcess initialProcState "devB").1.1) := by decide

/-- C4 amended: each strategy's own counter is monotonically increasing and
its ports are never reused — across any interleaving of spawns and process
exits on the module-global counter the assigned ports are pairwise strictly
increasing (an exit never resets the counter), and likewise for any run of
`createForDevice` on one factory; but ports of the two strategies may
coincide, as the counterexample shows. -/
theorem ports_strictly_increase_within_each_strategy :
    (∀ st evs, ((runEvents st evs).1).Pairwise (· < ·)) ∧
    (∀ f n, (forDevicePorts f n).Pairwise (· < ·)) ∧
    (∀ st d, (onWorkerExit st d).portCounter = st.portCounter) :=
  ⟨fun st evs => runEvents_ports_pairwise evs st,
   fun f n => forDevicePorts_pairwise n f,
   fun _ _ => rfl⟩

/-- C5 (code evaluation at the failing input): the sweep cannot do what the
claim says. In the ordinary state — a stale device whose connection handler
stored both its `DeviceConnection` (line 203) and its `deviceServers`
record (line 188) — line 265 evaluates `deviceServers.get(deviceId)?.close()`
on the stored `{ httpServer, wss, ws }` record, which has no `close` method
(statically a type error as well), so the call throws a TypeError and the
sweep aborts: the stale `DeviceConnection` is NOT removed, nothing is
closed, and every map is exactly as before (first two conjuncts). The third
conjunct shows the abort mid-sweep: a stale device with no tracked server
entry is removed, then the next stale device with one makes the sweep throw,
stranding that entry and its server record. -/
theorem reaper_sweep_throws_and_removes_nothing :
    isStale 2000000 ⟨"devC", 4000, 0, 0⟩ = true ∧
    cleanupInactiveDevices 2000000
        ⟨[("devC", ⟨"devC", 4000, 0, 0⟩)], [("devC", ⟨9, 10, some 7⟩)],
         [("devC", ⟨4000, "devC"⟩)]⟩
      = (⟨[("devC", ⟨"devC", 4000, 0, 0⟩)], [("devC", ⟨9, 10, some 7⟩)],
          [("devC", ⟨4000, "devC"⟩)]⟩, true) ∧
    cleanupInactiveDevices 2000000
        ⟨[("devB", ⟨"devB", 4001, 0, 0⟩), ("devC", ⟨"devC", 4000, 0, 0⟩)],
         [("devC", ⟨9, 10, some 7⟩)], []⟩
      = (⟨[("devC", ⟨"devC", 4000, 0, 0⟩)], [("devC", ⟨9, 10, some 7⟩)], []⟩,
         true) := by decide

/-- C6: evaluation of the code at the failing input. The only traffic
handler on a device's isolated connection (`createForDevice`, lines
191-194) returns the `DeviceConnection` record untouched — `lastActive` is
never updated on a message and keeps its creation value, so an active
device's record ages exactly like an idle one's, contradicting the claim
(and §3/§4.6 of the spec) that `lastActive` is updated on every message. -/
theorem device_record_untouched_by_traffic :
    (∀ conn wsId payload, (deviceOnMessage conn wsId payload).1 = conn) ∧
    (deviceOnMessage (mkDeviceConnection "devD" 4000 1000) 7 [104]).1.lastActive
      = 1000 :=
  ⟨fun _ _ _ => rfl, rfl⟩

/-- C7 counterexample: registration is `Map.set` (line 61) with no duplicate
check — registering an already-present session id does not fail, returns a
registry, and replaces the previous socket handle, so the existing entry is
NOT left unchanged. -/
theorem register_duplicate_silently_overwrites :
    regSet [("s1", ⟨1, "10.0.0.1", "devA"⟩)] "s1" ⟨2, "10.0.0.2", "devB"⟩
        = [("s1", ⟨2, "10.0.0.2", "devB"⟩)] ∧
    aget (regSet [("s1", ⟨1, "10.0.0.1", "devA"⟩)] "s1" ⟨2, "10.0.0.2", "devB"⟩)
        "s1" ≠ some ⟨1, "10.0.0.1", "devA"⟩ := by decide

/-- C7 amended: registration never fails; inserting a session id that is
already registered silently overwrites that entry (the new socket handle
wins), and every other session's entry is untouched. -/
theorem register_always_inserts_overwriting
    (reg : Registry) (k : String) (v : SessEntry) :
    aget (regSet reg k v) k = some v ∧
    (∀ k2, k2 ≠ k → aget (regSet reg k v) k2 = aget reg k2) :=
  ⟨aget_aset_self reg k v, fun k2 h => aget_aset_ne reg k k2 v h⟩

/-- C7 amended witness: overwriting `s1` leaves `s2` alone. -/
theorem register_always_inserts_overwriting_witness :
    aget (regSet [("s1", ⟨1, "ipA", "devA"⟩), ("s2", ⟨3, "ipC", "devC"⟩)]
        "s1" ⟨2, "ipB", "devB"⟩) "s1" = some ⟨2, "ipB", "devB"⟩ ∧
    aget (regSet [("s1", ⟨1, "ipA", "devA"⟩), ("s2", ⟨3, "ipC", "devC"⟩)]
        "s1" ⟨2, "ipB", "devB"⟩) "s2"
      = aget [("s1", ⟨1, "ipA", "devA"⟩), ("s2", ⟨3, "ipC", "devC"⟩)] "s2" :=
  ⟨(register_always_inserts_overwriting
      [("s1", ⟨1, "ipA", "devA"⟩), ("s2", ⟨3, "ipC", "devC"⟩)] "s1"
      ⟨2, "ipB", "devB"⟩).1,
   (register_always_inserts_overwriting
      [("s1", ⟨1, "ipA", "devA"⟩), ("s2", ⟨3, "ipC", "devC"⟩)] "s1"
      ⟨2, "ipB", "devB"⟩).2 "s2" (by decide)⟩

/-- C8: the worker (part_001) reads `--device-id` and `--port` from argv by
`indexOf` + 1 (recovering the device id and the decimal port value the
parent passed), its message handler sends every received payload back
verbatim on the socket it arrived on and nothing else, and its SIGTERM
handler closes the listener and exits with code 0. -/
theorem worker_parses_echoes_and_exits_cleanly
    (d s : String) (p : Nat)
    (hd : d ≠ "--port")
    (hs : parseDecimal s = some p) :
    workerParseArgs ["--device-id", d, "--port", s] = ⟨some d, some p⟩ ∧
    (∀ wsId payload, workerOnMessage wsId payload
        = [.logLine "Received", .send wsId payload, .logLine "Echoed back"]) ∧
    (∀ wsId payload w q, DevEffect.send w q ∈ workerOnMessage wsId payload →
        w = wsId ∧ q = payload) ∧
    workerOnSigterm = ⟨true, 0⟩ := by
  refine ⟨?_, fun _ _ => rfl, ?_, rfl⟩
  · have h1 : jsIndexOf ["--device-id", d, "--port", s] "--device-id" = 0 := by
      simp [jsIndexOf, jsIndexOfAux]
    have h2 : jsIndexOf ["--device-id", d, "--port", s] "--port" = 2 := by
      simp [jsIndexOf, jsIndexOfAux, hd]
    simp [workerParseArgs, h1, h2, argAt, nthArg, parseIntJS, hs]
  · intro wsId payload w q hmem
    simp only [workerOnMessage, List.mem_cons, List.mem_singleton] at hmem
    rcases hmem with h | h | h | h
    · exact absurd h (by simp)
    · exact ⟨(DevEffect.send.injEq .. ▸ h).1, (DevEffect.send.injEq .. ▸ h).2⟩
    · exact absurd h (by simp)
    · exact absurd h (by simp)

/-- C8 witness: the worker spawned for device `devZ` on port 3001. -/
theorem worker_parses_echoes_and_exits_cleanly_witness :
    workerParseArgs ["--device-id", "devZ", "--port", "3001"]
      = ⟨some "devZ", some 3001⟩ :=
  (worker_parses_echoes_and_exits_cleanly "devZ" "3001" 3001
    (by decide) (by decide)).1

end Ecosense
